import Mathlib

/-!
Verification of the SFMC asset-search client (`sfmc-mcp-server.py`).

The Python program is shallowly embedded: JSON values become an inductive
`Json`, Python dicts become association lists (`Dict`) with the dict
operations (`setKey` = `d[k] = v`, `dictUpdate` = `d.update(u)`) modelled
faithfully (replace the existing binding in place, else append), machine
integers are Lean `Int` (Python ints are unbounded), Python `//` is
`Int.fdiv` (floor division), and network I/O becomes explicit oracle
parameters describing what each HTTP exchange would have produced.
Exceptions raised by the HTTP library or by JSON decoding are modelled as
outcome constructors; the `try/except` funnels of the source become the
corresponding failure branches.  Each operation additionally reports how
many token-endpoint exchanges and how many asset-endpoint requests it
performed, so that "makes no network call" is a provable statement.
-/

namespace SFMC

/-- JSON values; Python dicts are ordered association lists. -/
inductive Json where
  | null : Json
  | bool : Bool → Json
  | num : Int → Json
  | str : String → Json
  | arr : List Json → Json
  | obj : List (String × Json) → Json

/-- A Python dict with string keys, in insertion order. -/
abbrev Dict := List (String × Json)

/-- Python `d.get(k)`/`d[k]`: the value bound to the first occurrence of `k`. -/
def dlookup (d : Dict) (k : String) : Option Json :=
  match d with
  | [] => none
  | (k0, v) :: rest => if k0 = k then some v else dlookup rest k

/-- Python `k in d`: whether the key is present. -/
def hasKey (d : Dict) (k : String) : Bool :=
  match d with
  | [] => false
  | (k0, _) :: rest => k0 = k || hasKey rest k

/-- Python `d[k] = v`: replace the binding in place if the key exists,
otherwise append the new binding at the end. -/
def setKey (d : Dict) (k : String) (v : Json) : Dict :=
  match d with
  | [] => [(k, v)]
  | (k0, v0) :: rest => if k0 = k then (k, v) :: rest else (k0, v0) :: setKey rest k v

/-- Python `base.update(upd)`: assign each binding of `upd`, in order,
into `base`. -/
def dictUpdate (base upd : Dict) : Dict :=
  upd.foldl (fun acc kv => setKey acc kv.1 kv.2) base

/-- The value bound to the LAST occurrence of `k` (what survives when a
list of bindings is folded into a dict). -/
def lastLookup (d : Dict) (k : String) : Option Json :=
  match d with
  | [] => none
  | (k0, v) :: rest =>
    match lastLookup rest k with
    | some w => some w
    | none => if k0 = k then some v else none

/-- Python `obj.get(k)` on a JSON object (the raw bodies handled by the client
are JSON objects; on any other value the source would raise, which no
claim exercises). -/
def jget (j : Json) (k : String) : Option Json :=
  match j with
  | .obj kvs => dlookup kvs k
  | _ => none

/-- Python `obj.get(k, d)` for the integer metadata fields (`count`, `pageSize`,
`page`) of a search response, which the provider returns as JSON
numbers. -/
def jgetIntD (j : Json) (k : String) (d : Int) : Int :=
  match jget j k with
  | some (.num n) => n
  | _ => d

/-- Python `asset.get(k1, \x7b\x7d).get(k2)`: best-effort nested field extraction. -/
def jget2 (j : Json) (k1 k2 : String) : Option Json :=
  jget ((jget j k1).getD (.obj [])) k2

/-- Python `results.get("items", [])`, a JSON array of asset records. -/
def jgetItems (j : Json) : List Json :=
  match jget j "items" with
  | some (.arr xs) => xs
  | _ => []

/-- Python `" and ".join(clauses)`. -/
def joinAnd : List String → String
  | [] => ""
  | [f] => f
  | f :: rest => f ++ " and " ++ joinAnd rest

/-- The arguments of the `search_sfmc_assets` tool, with its Python
defaults (`asset_name=""`, `asset_type=""`, `page_size=50`,
`page_number=1`, `category_id=None`). -/
structure SimpleSearchArgs where
  asset_name : String := ""
  asset_type : String := ""
  page_size : Int := 50
  page_number : Int := 1
  category_id : Option Int := none

/-- The `filters` list built by `search_sfmc_assets` (lines 282-291):
`if asset_name: ...`, `if asset_type: ...`, `if category_id: ...` — Python
truthiness drops empty strings, `None`, and `0`. -/
def buildFilters (a : SimpleSearchArgs) : List String :=
  (if a.asset_name = "" then [] else ["name like '" ++ a.asset_name ++ "'"]) ++
  (if a.asset_type = "" then [] else ["assetType.name eq '" ++ a.asset_type ++ "'"]) ++
  (match a.category_id with
   | none => []
   | some c => if c = 0 then [] else ["category.id eq " ++ toString c])

/-- The `search_params` dict built by `search_sfmc_assets` (lines
276-294): clamped pagination plus an optional `$filter` entry. -/
def buildSimpleParams (a : SimpleSearchArgs) : Dict :=
  let base : Dict :=
    [("$pagesize", Json.num (min (max a.page_size 1) 50)),
     ("$page", Json.num (max a.page_number 1))]
  let filters := buildFilters a
  if filters = [] then base else setKey base "$filter" (Json.str (joinAnd filters))

/-- The `default_query` body of `SFMCClient.advanced_asset_search`
(lines 165-181). -/
def defaultQuery : Dict :=
  [("page", Json.obj [("page", Json.num 1), ("pageSize", Json.num 50)]),
   ("query", Json.obj [("property", Json.str "name"),
                       ("simpleOperator", Json.str "contains"),
                       ("value", Json.str "")]),
   ("sort", Json.arr [Json.obj [("property", Json.str "modifiedDate"),
                                ("direction", Json.str "DESC")]])]

/-- Lines 183-185: `if query_body: default_query.update(query_body)` —
the shallow top-level merge of the user query into the default body. -/
def buildAdvancedQuery (query_body : Dict) : Dict :=
  if query_body.isEmpty then defaultQuery else dictUpdate defaultQuery query_body

/-- Line 307: `(total_count + page_size - 1) // page_size`; `none` models
the `ZeroDivisionError` raised when `page_size` is `0`. -/
def totalPagesCalc (total_count page_size : Int) : Option Int :=
  if page_size = 0 then none
  else some ((total_count + page_size - 1).fdiv page_size)

/-- The mutable token fields of `SFMCClient` (`access_token`,
`token_expiry`); time is an integer timestamp. -/
structure ClientState where
  access_token : Option String
  token_expiry : Option Int
deriving Repr, DecidableEq

/-- Line 40: `self.access_token and self.token_expiry and
datetime.now() < self.token_expiry` (a non-`None` `datetime` is always
truthy; a string is truthy iff non-empty). -/
def tokenValid (st : ClientState) (now : Int) : Bool :=
  match st.access_token, st.token_expiry with
  | some t, some e => !t.isEmpty && decide (now < e)
  | _, _ => false

/-- What the token-endpoint exchange (lines 60-63) would produce:
a `requests` exception from `post`/`raise_for_status`, a JSON-decoding
failure in `response.json()`, or a decoded body with optional
`access_token`, `expires_in`, `token_type` fields. -/
inductive ExchangeOutcome where
  | transportError : String → ExchangeOutcome
  | malformedJson : String → ExchangeOutcome
  | body : Option String → Option Int → Option String → ExchangeOutcome
deriving Repr, DecidableEq

/-- The dicts returned by `get_access_token`: the cached-token dict
(line 41), the fresh-token dict (lines 72-77) and the failure dicts
(lines 82, 86). -/
inductive AuthResult where
  | cached : String → AuthResult
  | fresh : String → Int → String → AuthResult
  | failure : String → AuthResult
deriving Repr, DecidableEq

/-- Python `result["success"] == False`. -/
def AuthResult.isFailure : AuthResult → Bool
  | .failure _ => true
  | _ => false

namespace SFMCClient

/-- Model of `SFMCClient.get_access_token` (lines 33-86).  Returns the result
dict, the client state after the call, and the number of token-endpoint
exchanges performed (0 on a cache hit, 1 otherwise).  On the valid-cache
path the stored token is returned unchanged (`Option.getD` only unpacks
the `some` guaranteed by `tokenValid`).  A missing `access_token` key
raises `KeyError('access_token')` before any field is assigned, caught by
the generic handler (line 83); transport/HTTP/JSON errors are caught at
line 79.  Only the successful path assigns `access_token` and
`token_expiry` (lines 66-68, with the 60-second safety margin). -/
def get_access_token (st : ClientState) (now : Int) (net : ExchangeOutcome) :
    AuthResult × ClientState × Nat :=
  if tokenValid st now then
    (AuthResult.cached (st.access_token.getD ""), st, 0)
  else
    match net with
    | .transportError msg => (.failure ("Authentication failed: " ++ msg), st, 1)
    | .malformedJson msg => (.failure ("Authentication failed: " ++ msg), st, 1)
    | .body tok exp ttype =>
      match tok with
      | none => (.failure "Unexpected authentication error: 'access_token'", st, 1)
      | some t =>
        let expires_in := exp.getD 3600
        (.fresh t expires_in (ttype.getD "Bearer"),
         ⟨some t, some (now + (expires_in - 60))⟩, 1)

end SFMCClient

/-- What an asset-endpoint request would produce: a `requests` exception,
a JSON-decoding failure, or a decoded JSON body. -/
inductive HttpOutcome where
  | transportError : String → HttpOutcome
  | malformedJson : String → HttpOutcome
  | body : Json → HttpOutcome

/-- The dicts returned by `SFMCClient.search_assets`: the success dict
(lines 128-134) or a failure dict carrying an error message. -/
inductive OpResult where
  | ok : Json → Int → Int → Int → OpResult
  | failure : String → OpResult

/-- The dicts returned by `SFMCClient.advanced_asset_search`: the success
dict (lines 197-204, which echoes `query_used`) or a failure dict. -/
inductive AdvResult where
  | ok : Json → Int → Int → Int → Dict → AdvResult
  | failure : String → AdvResult

namespace SFMCClient

/-- Model of `SFMCClient.search_assets` (lines 88-143).  `net` maps the sent
query parameters to the outcome of the GET request.  Returns the result
dict, the state after the call, the token-exchange count and the
asset-request count.  A failed token call is returned as-is (line 97)
with no asset request. -/
def search_assets (st : ClientState) (now : Int) (net_token : ExchangeOutcome)
    (net : Dict → HttpOutcome) (search_params : Dict) :
    OpResult × ClientState × Nat × Nat :=
  match get_access_token st now net_token with
  | (AuthResult.failure e, st1, tc) => (.failure e, st1, tc, 0)
  | (_, st1, tc) =>
    let default_params : Dict :=
      [("$pagesize", Json.num 50), ("$page", Json.num 1),
       ("$orderBy", Json.str "modifiedDate desc")]
    let sent := if search_params.isEmpty then default_params
                else dictUpdate default_params search_params
    match net sent with
    | .transportError msg => (.failure ("Asset search failed: " ++ msg), st1, tc, 1)
    | .malformedJson msg => (.failure ("Asset search failed: " ++ msg), st1, tc, 1)
    | .body j =>
      (.ok j (jgetIntD j "count" 0) (jgetIntD j "pageSize" 50) (jgetIntD j "page" 1),
       st1, tc, 1)

/-- Model of `SFMCClient.advanced_asset_search` (lines 145-213).  The POST body is
`buildAdvancedQuery query_body`; the success dict echoes it as
`query_used`. -/
def advanced_asset_search (st : ClientState) (now : Int)
    (net_token : ExchangeOutcome) (net : Dict → HttpOutcome) (query_body : Dict) :
    AdvResult × ClientState × Nat × Nat :=
  match get_access_token st now net_token with
  | (AuthResult.failure e, st1, tc) => (.failure e, st1, tc, 0)
  | (_, st1, tc) =>
    let q := buildAdvancedQuery query_body
    match net q with
    | .transportError msg => (.failure ("Advanced asset search failed: " ++ msg), st1, tc, 1)
    | .malformedJson msg => (.failure ("Advanced asset search failed: " ++ msg), st1, tc, 1)
    | .body j =>
      (.ok j (jgetIntD j "count" 0) (jgetIntD j "pageSize" 50) (jgetIntD j "page" 1) q,
       st1, tc, 1)

end SFMCClient

/-- The `search_summary` object built at lines 303-308. -/
structure SearchSummary where
  total_found : Int
  page : Int
  page_size : Int
  total_pages : Int

/-- The per-asset projection built at lines 313-324 (best-effort field
extraction; missing fields become `none`, matching Python `None`). -/
structure AssetSummary where
  id : Option Json
  name : Option Json
  asset_type : Option Json
  created_date : Option Json
  modified_date : Option Json
  created_by : Option Json
  modified_by : Option Json
  category : Option Json
  status : Option Json
  file_size : Option Json

/-- Lines 313-324. -/
def projectAsset (a : Json) : AssetSummary :=
  { id := jget a "id"
    name := jget a "name"
    asset_type := jget2 a "assetType" "name"
    created_date := jget a "createdDate"
    modified_date := jget a "modifiedDate"
    created_by := jget2 a "createdBy" "name"
    modified_by := jget2 a "modifiedBy" "name"
    category := jget2 a "category" "name"
    status := jget2 a "status" "name"
    file_size := jget2 a "fileProperties" "fileSize" }

/-- The outcomes of the `search_sfmc_assets` tool: the not-initialized
message (line 272), the formatted JSON result (line 327), the
search-failure message (line 330), or the generic handler (line 333,
which is what catches the `ZeroDivisionError` of line 307). -/
inductive SearchToolResult where
  | notInitialized : SearchToolResult
  | formatted : SearchSummary → List AssetSummary → SearchToolResult
  | failed : String → SearchToolResult
  | toolError : String → SearchToolResult

/-- The `search_sfmc_assets` tool (lines 248-333).  `client` is the
global `sfmc_client` (`none` before `initialize_sfmc_connection`). -/
def search_sfmc_assets (client : Option ClientState) (a : SimpleSearchArgs)
    (now : Int) (net_token : ExchangeOutcome) (net : Dict → HttpOutcome) :
    SearchToolResult × Option ClientState × Nat × Nat :=
  match client with
  | none => (.notInitialized, none, 0, 0)
  | some st =>
    match SFMCClient.search_assets st now net_token net (buildSimpleParams a) with
    | (OpResult.failure e, st1, tc, ac) => (.failed e, some st1, tc, ac)
    | (OpResult.ok results total_count page_size page, st1, tc, ac) =>
      match totalPagesCalc total_count page_size with
      | none => (.toolError "integer division or modulo by zero", some st1, tc, ac)
      | some tp =>
        (.formatted ⟨total_count, page, page_size, tp⟩
          ((jgetItems results).map projectAsset), some st1, tc, ac)

/-- The outcomes of the `advanced_asset_search` tool: not-initialized
(line 358), an invalid-JSON message (line 373), the dumped success dict
(line 368), or the failure message (line 370). -/
inductive AdvToolResult where
  | notInitialized : AdvToolResult
  | invalidJson : String → AdvToolResult
  | ok : Json → Int → Int → Int → Dict → AdvToolResult
  | failed : String → AdvToolResult

/-- The `advanced_asset_search` tool (lines 335-375).  `parsed` is the
outcome of `json.loads(query_json)` (the query is a JSON object in every
non-erroneous run); note the not-initialized check precedes parsing. -/
def advanced_asset_search (client : Option ClientState)
    (parsed : Except String Dict) (now : Int) (net_token : ExchangeOutcome)
    (net : Dict → HttpOutcome) : AdvToolResult × Option ClientState × Nat × Nat :=
  match client with
  | none => (.notInitialized, none, 0, 0)
  | some st =>
    match parsed with
    | .error e => (.invalidJson e, some st, 0, 0)
    | .ok qb =>
      match SFMCClient.advanced_asset_search st now net_token net qb with
      | (AdvResult.failure e, st1, tc, ac) => (.failed e, some st1, tc, ac)
      | (AdvResult.ok j cnt ps pg qu, st1, tc, ac) => (.ok j cnt ps pg qu, some st1, tc, ac)

/-- The outcomes of the `get_asset_by_id` tool: not-initialized
(line 391), the auth-failure message (line 397, which embeds the token
error), the verbatim asset JSON (line 415), or the retrieval-failure
message (line 418). -/
inductive AssetByIdResult where
  | notInitialized : AssetByIdResult
  | authFailed : String → AssetByIdResult
  | assetData : Json → AssetByIdResult
  | failed : String → AssetByIdResult

/-- The `get_asset_by_id` tool (lines 377-420).  `net` maps the asset id
interpolated into the URL to the outcome of the GET request; the raw
provider JSON is returned verbatim (no normalization). -/
def get_asset_by_id (client : Option ClientState) (asset_id : String)
    (now : Int) (net_token : ExchangeOutcome) (net : String → HttpOutcome) :
    AssetByIdResult × Option ClientState × Nat × Nat :=
  match client with
  | none => (.notInitialized, none, 0, 0)
  | some st =>
    match SFMCClient.get_access_token st now net_token with
    | (AuthResult.failure e, st1, tc) => (.authFailed e, some st1, tc, 0)
    | (_, st1, tc) =>
      match net asset_id with
      | .transportError msg => (.failed ("Failed to retrieve asset: " ++ msg), some st1, tc, 1)
      | .malformedJson msg => (.failed ("Failed to retrieve asset: " ++ msg), some st1, tc, 1)
      | .body j => (.assetData j, some st1, tc, 1)

/-- The parse of the C2 round-trip input string
`'\x7b"page":\x7b"page":2,"pageSize":10\x7d\x7d'`. -/
def c2Input : Dict :=
  [("page", Json.obj [("page", Json.num 2), ("pageSize", Json.num 10)])]

/-- A search-response body with `pageSize` equal to `0`. -/
def c5Body : Json :=
  Json.obj [("count", Json.num 10), ("pageSize", Json.num 0), ("page", Json.num 1)]

/-! ## General lemmas about the dict operations -/

theorem dlookup_setKey (d : Dict) (k : String) (v : Json) (q : String) :
    dlookup (setKey d k v) q = if k = q then some v else dlookup d q := by
  induction d with
  | nil => simp [setKey, dlookup]
  | cons hd tl ih =>
    obtain ⟨k0, v0⟩ := hd
    by_cases h0 : k0 = k
    · subst h0
      simp only [setKey, if_pos rfl, dlookup]
      by_cases hq : k0 = q
      · subst hq; simp
      · simp [hq]
    · simp only [setKey, if_neg h0, dlookup]
      by_cases hq : k0 = q
      · subst hq
        have : ¬ k = k0 := fun h => h0 h.symm
        simp [this]
      · simp [hq, ih]

theorem dlookup_dictUpdate (upd : Dict) (base : Dict) (k : String) :
    dlookup (dictUpdate base upd) k =
      match lastLookup upd k with
      | some v => some v
      | none => dlookup base k := by
  induction upd generalizing base with
  | nil => simp [dictUpdate, lastLookup]
  | cons hd tl ih =>
    obtain ⟨k0, v0⟩ := hd
    have hstep : dictUpdate base ((k0, v0) :: tl) = dictUpdate (setKey base k0 v0) tl := rfl
    rw [hstep, ih]
    simp only [lastLookup]
    cases lastLookup tl k with
    | some w => simp
    | none =>
      simp only [dlookup_setKey]
      by_cases h : k0 = k
      · subst h; simp
      · simp [h]

theorem dlookup_eq_none_of_not_mem (d : Dict) (k : String)
    (h : k ∉ d.map Prod.fst) : dlookup d k = none := by
  induction d with
  | nil => rfl
  | cons hd tl ih =>
    obtain ⟨k0, v0⟩ := hd
    simp only [List.map_cons, List.mem_cons] at h
    push_neg at h
    have hne : ¬ k0 = k := fun he => h.1 he.symm
    simp [dlookup, hne, ih h.2]

theorem lastLookup_eq_dlookup_of_nodup (d : Dict) (k : String)
    (h : (d.map Prod.fst).Nodup) : lastLookup d k = dlookup d k := by
  induction d with
  | nil => rfl
  | cons hd tl ih =>
    obtain ⟨k0, v0⟩ := hd
    simp only [List.map_cons, List.nodup_cons] at h
    obtain ⟨hk0, htl⟩ := h
    simp only [lastLookup, dlookup, ih htl]
    by_cases hq : k0 = k
    · subst hq
      rw [dlookup_eq_none_of_not_mem tl k0 hk0]
    · cases dlookup tl k with
      | some w => simp [hq]
      | none => simp [hq]


/-! ## Lookup lemmas for the simple-search parameter dict -/

theorem dlookup_buildSimpleParams_pagesize (a : SimpleSearchArgs) :
    dlookup (buildSimpleParams a) "$pagesize"
      = some (Json.num (min (max a.page_size 1) 50)) := by
  unfold buildSimpleParams
  by_cases hf : buildFilters a = [] <;> simp [hf, dlookup_setKey, dlookup]

theorem dlookup_buildSimpleParams_page (a : SimpleSearchArgs) :
    dlookup (buildSimpleParams a) "$page"
      = some (Json.num (max a.page_number 1)) := by
  unfold buildSimpleParams
  by_cases hf : buildFilters a = [] <;> simp [hf, dlookup_setKey, dlookup]

theorem dlookup_buildSimpleParams_filter (a : SimpleSearchArgs)
    (h : buildFilters a ≠ []) :
    dlookup (buildSimpleParams a) "$filter"
      = some (Json.str (joinAnd (buildFilters a))) := by
  unfold buildSimpleParams
  simp [h, dlookup_setKey, dlookup]

theorem hasKey_buildSimpleParams_filter_eq_false (a : SimpleSearchArgs)
    (h : buildFilters a = []) :
    hasKey (buildSimpleParams a) "$filter" = false := by
  unfold buildSimpleParams
  simp [h, hasKey]

/-- Claim C3: for every page size outside `[1,50]` the built `$pagesize`
is clamped to the nearest bound, and for every page number below 1 the
built `$page` is 1. -/
theorem pagination_clamping (a b c : SimpleSearchArgs)
    (ha : a.page_size < 1) (hb : 50 < b.page_size) (hc : c.page_number < 1) :
    dlookup (buildSimpleParams a) "$pagesize" = some (Json.num 1) ∧
    dlookup (buildSimpleParams b) "$pagesize" = some (Json.num 50) ∧
    dlookup (buildSimpleParams c) "$page" = some (Json.num 1) := by
  refine ⟨?_, ?_, ?_⟩
  · rw [dlookup_buildSimpleParams_pagesize]
    have : min (max a.page_size 1) 50 = 1 := by omega
    rw [this]
  · rw [dlookup_buildSimpleParams_pagesize]
    have : min (max b.page_size 1) 50 = 50 := by omega
    rw [this]
  · rw [dlookup_buildSimpleParams_page]
    have : max c.page_number 1 = 1 := by omega
    rw [this]

/-- Claim C3 witness: `p = 0` clamps to 1, `p = 999` clamps to 50,
`page = 0` is raised to 1. -/
theorem pagination_clamping_witness :
    dlookup (buildSimpleParams ⟨"", "", 0, 1, none⟩) "$pagesize" = some (Json.num 1) ∧
    dlookup (buildSimpleParams ⟨"", "", 999, 1, none⟩) "$pagesize" = some (Json.num 50) ∧
    dlookup (buildSimpleParams ⟨"", "", 50, 0, none⟩) "$page" = some (Json.num 1) :=
  pagination_clamping ⟨"", "", 0, 1, none⟩ ⟨"", "", 999, 1, none⟩ ⟨"", "", 50, 0, none⟩
    (by norm_num) (by norm_num) (by norm_num)

/-- Claim C4: no filters means no `$filter` key; `name="x"` and
`type="y"` give `name like 'x' and assetType.name eq 'y'`; all three
filters give exactly one clause each, joined with `" and "` in the order
name, type, category. -/
theorem filter_construction (x y : String) (ps pn : Int) (c : Int)
    (hx : x ≠ "") (hy : y ≠ "") (hc : c ≠ 0) :
    hasKey (buildSimpleParams ⟨"", "", ps, pn, none⟩) "$filter" = false ∧
    dlookup (buildSimpleParams ⟨x, y, ps, pn, none⟩) "$filter"
      = some (Json.str ("name like '" ++ x ++ "' and assetType.name eq '" ++ y ++ "'")) ∧
    buildFilters ⟨x, y, ps, pn, some c⟩
      = ["name like '" ++ x ++ "'", "assetType.name eq '" ++ y ++ "'",
         "category.id eq " ++ toString c] ∧
    dlookup (buildSimpleParams ⟨x, y, ps, pn, some c⟩) "$filter"
      = some (Json.str ("name like '" ++ x ++ "' and assetType.name eq '" ++ y ++
          "' and category.id eq " ++ toString c)) := by
  have hfilters2 : buildFilters ⟨x, y, ps, pn, none⟩
      = ["name like '" ++ x ++ "'", "assetType.name eq '" ++ y ++ "'"] := by
    simp [buildFilters, hx, hy]
  have hfilters3 : buildFilters ⟨x, y, ps, pn, some c⟩
      = ["name like '" ++ x ++ "'", "assetType.name eq '" ++ y ++ "'",
         "category.id eq " ++ toString c] := by
    simp [buildFilters, hx, hy, hc]
  refine ⟨?_, ?_, hfilters3, ?_⟩
  · apply hasKey_buildSimpleParams_filter_eq_false
    simp [buildFilters]
  · rw [dlookup_buildSimpleParams_filter _ (by rw [hfilters2]; simp), hfilters2]
    simp only [joinAnd]
    rw [show ("' and assetType.name eq '" : String)
          = "'" ++ (" and " ++ "assetType.name eq '") from rfl]
    simp only [String.append_assoc]
  · rw [dlookup_buildSimpleParams_filter _ (by rw [hfilters3]; simp), hfilters3]
    simp only [joinAnd]
    rw [show ("' and assetType.name eq '" : String)
          = "'" ++ (" and " ++ "assetType.name eq '") from rfl,
        show ("' and category.id eq " : String)
          = "'" ++ (" and " ++ "category.id eq ") from rfl]
    simp only [String.append_assoc]

/-- Claim C4 witness at `name="x"`, `type="y"`, `category=7`. -/
theorem filter_construction_witness :
    hasKey (buildSimpleParams ⟨"", "", 50, 1, none⟩) "$filter" = false ∧
    dlookup (buildSimpleParams ⟨"x", "y", 50, 1, none⟩) "$filter"
      = some (Json.str "name like 'x' and assetType.name eq 'y'") :=
  have h := filter_construction "x" "y" 50 1 7
    (by decide) (by decide) (by decide)
  ⟨h.1, h.2.1⟩

/-- Claim C9: falsy filter values are dropped: `category_id = 0` and
empty `asset_name`/`asset_type` contribute no clause, and a category
clause is emitted only for a nonzero category id. -/
theorem falsy_filters_dropped (x y : String) (ps pn : Int) (c : Int) (hc : c ≠ 0) :
    buildFilters ⟨"", "", ps, pn, some 0⟩ = [] ∧
    hasKey (buildSimpleParams ⟨"", "", ps, pn, some 0⟩) "$filter" = false ∧
    buildFilters ⟨x, y, ps, pn, some 0⟩ = buildFilters ⟨x, y, ps, pn, none⟩ ∧
    buildFilters ⟨"", "", ps, pn, some c⟩ = ["category.id eq " ++ toString c] := by
  refine ⟨by simp [buildFilters], ?_, by simp [buildFilters], by simp [buildFilters, hc]⟩
  apply hasKey_buildSimpleParams_filter_eq_false
  simp [buildFilters]

/-- Claim C9 witness at `category_id = 0` and `category_id = 7`. -/
theorem falsy_filters_dropped_witness :
    buildFilters ⟨"", "", 50, 1, some 0⟩ = [] ∧
    buildFilters ⟨"", "", 50, 1, some 7⟩ = ["category.id eq 7"] :=
  have h := falsy_filters_dropped "n" "t" 50 1 7 (by decide)
  ⟨h.1, h.2.2.2⟩


/-- Claim C2: the advanced-query merge round-trip.  The concrete input
replaces the whole default `page` object while `query` and `sort` keep
their documented defaults, and in general a top-level key of the input
overwrites the default for that key while absent keys keep the default
(shallow merge). -/
theorem advanced_query_merge (upd : Dict) (h : (upd.map Prod.fst).Nodup) :
    dlookup (buildAdvancedQuery c2Input) "page"
      = some (Json.obj [("page", Json.num 2), ("pageSize", Json.num 10)]) ∧
    dlookup (buildAdvancedQuery c2Input) "query"
      = some (Json.obj [("property", Json.str "name"),
                        ("simpleOperator", Json.str "contains"),
                        ("value", Json.str "")]) ∧
    dlookup (buildAdvancedQuery c2Input) "sort"
      = some (Json.arr [Json.obj [("property", Json.str "modifiedDate"),
                                  ("direction", Json.str "DESC")]]) ∧
    ∀ k, dlookup (buildAdvancedQuery upd) k
      = match dlookup upd k with
        | some v => some v
        | none => dlookup defaultQuery k := by
  refine ⟨rfl, rfl, rfl, fun k => ?_⟩
  unfold buildAdvancedQuery
  cases hu : upd with
  | nil => simp [dlookup]
  | cons hd tl =>
    rw [← hu]
    have hne : upd.isEmpty = false := by rw [hu]; rfl
    rw [hne]
    simp only [Bool.false_eq_true, if_false]
    rw [dlookup_dictUpdate, lastLookup_eq_dlookup_of_nodup upd k h]

/-- Claim C2 witness: the merge at the concrete round-trip input. -/
theorem advanced_query_merge_witness :
    dlookup (buildAdvancedQuery c2Input) "page"
      = some (Json.obj [("page", Json.num 2), ("pageSize", Json.num 10)]) ∧
    dlookup (buildAdvancedQuery c2Input) "query"
      = some (Json.obj [("property", Json.str "name"),
                        ("simpleOperator", Json.str "contains"),
                        ("value", Json.str "")]) ∧
    dlookup (buildAdvancedQuery c2Input) "sort" = dlookup defaultQuery "sort" :=
  have h := advanced_query_merge c2Input (by simp [c2Input])
  ⟨h.1, h.2.1, by rw [h.2.2.1]; rfl⟩

/-- Claim C6: for positive `page_size` the computed `total_pages` is the
ceiling of `total_found / page_size`; in particular `101/50` pages is 3
and `0/50` pages is 0. -/
theorem total_pages_formula (t p : Int) (hp : 0 < p) :
    totalPagesCalc t p = some ⌈(t : ℚ) / (p : ℚ)⌉ ∧
    totalPagesCalc 101 50 = some 3 ∧
    totalPagesCalc 0 50 = some 0 := by
  refine ⟨?_, by decide, by decide⟩
  unfold totalPagesCalc
  rw [if_neg hp.ne']
  congr 1
  set q : Int := (t + p - 1).fdiv p with hq
  have hdec := Int.fdiv_add_fmod (t + p - 1) p
  have hr0 : 0 ≤ (t + p - 1).fmod p := Int.fmod_nonneg' _ hp
  have hr1 : (t + p - 1).fmod p < p := Int.fmod_lt_of_pos _ hp
  have h1 : t ≤ q * p := by nlinarith [hdec]
  have h2 : (q - 1) * p < t := by nlinarith [hdec]
  have hpQ : (0 : ℚ) < (p : ℚ) := by exact_mod_cast hp
  rw [eq_comm, Int.ceil_eq_iff]
  refine ⟨?_, ?_⟩
  · rw [lt_div_iff₀ hpQ]
    exact_mod_cast h2
  · rw [div_le_iff₀ hpQ]
    exact_mod_cast h1

/-- Claim C6 witness: `totalFound=101`, `pageSize=50` yields
`⌈101/50⌉ = 3` pages. -/
theorem total_pages_formula_witness :
    (0 : Int) < 50 ∧ totalPagesCalc 101 50 = some ⌈(101 : ℚ) / (50 : ℚ)⌉ ∧
    totalPagesCalc 101 50 = some 3 :=
  have h := total_pages_formula 101 50 (by norm_num)
  ⟨by norm_num, h.1, h.2.1⟩

/-- Claim C5 counterexample: on a response with `pageSize = 0` the
division is NOT guarded: the tool hits a `ZeroDivisionError` (caught by
the generic handler as an error result), and the computation yields no
value at all — in particular not a 1-page summary. -/
theorem zero_pagesize_counterexample :
    (search_sfmc_assets (some ⟨some "tok", some 10⟩) ⟨"", "", 50, 1, none⟩ 0
        (ExchangeOutcome.body none none none) (fun _ => HttpOutcome.body c5Body)).1
      = SearchToolResult.toolError "integer division or modulo by zero" ∧
    totalPagesCalc 10 0 = none ∧
    totalPagesCalc 10 0 ≠ some 1 :=
  ⟨rfl, rfl, by decide⟩

/-- Claim C5 as amended: when a search response reports `pageSize = 0`,
the `total_pages` division is not guarded — it raises
`ZeroDivisionError`, which the tool's generic exception handler converts
into an error result (so the process does not crash, but the result is
an error, not a 1-page summary). -/
theorem zero_pagesize_amended (st : ClientState) (a : SimpleSearchArgs) (now : Int)
    (nt : ExchangeOutcome) (body : Json) (t : Int)
    (hok : ((SFMCClient.get_access_token st now nt).1).isFailure = false)
    (hps : jgetIntD body "pageSize" 50 = 0) :
    (search_sfmc_assets (some st) a now nt (fun _ => HttpOutcome.body body)).1
      = SearchToolResult.toolError "integer division or modulo by zero" ∧
    totalPagesCalc t 0 = none := by
  refine ⟨?_, by simp [totalPagesCalc]⟩
  rcases hE : SFMCClient.get_access_token st now nt with ⟨r, st1, tc⟩
  rw [hE] at hok
  have hsa : SFMCClient.search_assets st now nt (fun _ => HttpOutcome.body body)
      (buildSimpleParams a)
      = (OpResult.ok body (jgetIntD body "count" 0) (jgetIntD body "pageSize" 50)
          (jgetIntD body "page" 1), st1, tc, 1) := by
    unfold SFMCClient.search_assets
    rw [hE]
    cases r with
    | failure e => simp [AuthResult.isFailure] at hok
    | cached tok => rfl
    | fresh tok e1 y1 => rfl
  simp [search_sfmc_assets, hsa, hps, totalPagesCalc]

/-- Claim C5 amended witness: a concrete client state and a concrete
`pageSize = 0` response body. -/
theorem zero_pagesize_amended_witness :
    (search_sfmc_assets (some ⟨none, none⟩) ⟨"", "", 50, 1, none⟩ 0
        (ExchangeOutcome.body (some "t") none none)
        (fun _ => HttpOutcome.body c5Body)).1
      = SearchToolResult.toolError "integer division or modulo by zero" ∧
    totalPagesCalc 5 0 = none :=
  zero_pagesize_amended ⟨none, none⟩ ⟨"", "", 50, 1, none⟩ 0
    (ExchangeOutcome.body (some "t") none none) c5Body 5 rfl rfl


/-- Claim C1: a valid cached token is returned unchanged with no
exchange; an expired/absent token triggers exactly one exchange whose
success replaces the cached token and expiry; a second call within the
new expiry window returns the cached token with no exchange (so two
calls in the window make exactly one exchange); a call after expiry
performs a new exchange and replaces the cached token. -/
theorem token_caching (st0 st : ClientState) (tnow now now2 now3 : Int)
    (net0 net2 : ExchangeOutcome) (t t2 : String) (e1 e2 : Option Int)
    (y1 y2 : Option String)
    (hv : tokenValid st0 tnow = true)
    (hstale : tokenValid st now = false)
    (ht : t ≠ "")
    (hwin : now2 < now + ((e1.getD 3600) - 60))
    (hafter : now + ((e1.getD 3600) - 60) ≤ now3) :
    SFMCClient.get_access_token st0 tnow net0
      = (AuthResult.cached (st0.access_token.getD ""), st0, 0) ∧
    SFMCClient.get_access_token st now (ExchangeOutcome.body (some t) e1 y1)
      = (AuthResult.fresh t (e1.getD 3600) (y1.getD "Bearer"),
         ⟨some t, some (now + ((e1.getD 3600) - 60))⟩, 1) ∧
    SFMCClient.get_access_token ⟨some t, some (now + ((e1.getD 3600) - 60))⟩ now2 net2
      = (AuthResult.cached t, ⟨some t, some (now + ((e1.getD 3600) - 60))⟩, 0) ∧
    (SFMCClient.get_access_token st now (ExchangeOutcome.body (some t) e1 y1)).2.2
      + (SFMCClient.get_access_token ⟨some t, some (now + ((e1.getD 3600) - 60))⟩
          now2 net2).2.2 = 1 ∧
    (SFMCClient.get_access_token ⟨some t, some (now + ((e1.getD 3600) - 60))⟩ now3
        (ExchangeOutcome.body (some t2) e2 y2)).2.2 = 1 ∧
    (SFMCClient.get_access_token ⟨some t, some (now + ((e1.getD 3600) - 60))⟩ now3
        (ExchangeOutcome.body (some t2) e2 y2)).2.1.access_token = some t2 := by
  have hemp : t.isEmpty = false := by
    rw [Bool.eq_false_iff]
    simpa [String.isEmpty_iff] using ht
  have hval2 : tokenValid ⟨some t, some (now + ((e1.getD 3600) - 60))⟩ now2 = true := by
    simp [tokenValid, hemp, hwin]
  have hval3 : tokenValid ⟨some t, some (now + ((e1.getD 3600) - 60))⟩ now3 = false := by
    simp [tokenValid, String.isEmpty_iff, not_lt.mpr hafter]
  have h1 : SFMCClient.get_access_token st0 tnow net0
      = (AuthResult.cached (st0.access_token.getD ""), st0, 0) := by
    simp [SFMCClient.get_access_token, hv]
  have h2 : SFMCClient.get_access_token st now (ExchangeOutcome.body (some t) e1 y1)
      = (AuthResult.fresh t (e1.getD 3600) (y1.getD "Bearer"),
         ⟨some t, some (now + ((e1.getD 3600) - 60))⟩, 1) := by
    simp [SFMCClient.get_access_token, hstale]
  have h3 : SFMCClient.get_access_token ⟨some t, some (now + ((e1.getD 3600) - 60))⟩
      now2 net2
      = (AuthResult.cached t, ⟨some t, some (now + ((e1.getD 3600) - 60))⟩, 0) := by
    simp [SFMCClient.get_access_token, hval2]
  have h5 : SFMCClient.get_access_token ⟨some t, some (now + ((e1.getD 3600) - 60))⟩
      now3 (ExchangeOutcome.body (some t2) e2 y2)
      = (AuthResult.fresh t2 (e2.getD 3600) (y2.getD "Bearer"),
         ⟨some t2, some (now3 + ((e2.getD 3600) - 60))⟩, 1) := by
    simp [SFMCClient.get_access_token, hval3]
  refine ⟨h1, h2, h3, ?_, ?_, ?_⟩
  · rw [h2, h3]
    rfl
  · rw [h5]
  · rw [h5]

/-- Claim C1 witness: a concrete valid cache hit, and a concrete
stale-then-cached pair of calls making exactly one exchange. -/
theorem token_caching_witness :
    SFMCClient.get_access_token ⟨some "a", some 10⟩ 0 (ExchangeOutcome.transportError "x")
      = (AuthResult.cached "a", ⟨some "a", some 10⟩, 0) ∧
    (SFMCClient.get_access_token ⟨none, none⟩ 0
        (ExchangeOutcome.body (some "tokA") (some 3600) none)).2.2
      + (SFMCClient.get_access_token ⟨some "tokA", some (0 + (3600 - 60))⟩ 100
          (ExchangeOutcome.transportError "x")).2.2 = 1 := by
  have h := token_caching ⟨some "a", some 10⟩ ⟨none, none⟩ 0 0 100 4000
    (ExchangeOutcome.transportError "x") (ExchangeOutcome.transportError "x")
    "tokA" "tokB" (some 3600) none none none
    (by decide) (by decide) (by decide) (by decide) (by decide)
  exact ⟨h.1, h.2.2.2.1⟩

/-- Claim C7: each of the three operations, invoked before
`initialize_sfmc_connection` (global client is `None`), returns the
not-initialized result and performs neither a token exchange nor an
asset request. -/
theorem not_initialized_guard (a : SimpleSearchArgs) (parsed : Except String Dict)
    (aid : String) (now : Int) (nt : ExchangeOutcome) (netD : Dict → HttpOutcome)
    (netS : String → HttpOutcome) :
    search_sfmc_assets none a now nt netD
      = (SearchToolResult.notInitialized, none, 0, 0) ∧
    advanced_asset_search none parsed now nt netD
      = (AdvToolResult.notInitialized, none, 0, 0) ∧
    get_asset_by_id none aid now nt netS
      = (AssetByIdResult.notInitialized, none, 0, 0) :=
  ⟨rfl, rfl, rfl⟩

/-- Claim C8: each operation first calls the token manager; when that
call fails, the operation returns the same auth error and performs no
asset request; and the token manager itself turns transport failures and
responses missing `access_token` into failure results carrying a
message (it returns in every case rather than raising). -/
theorem auth_failure_propagation (st st2 : ClientState) (now now2 : Int)
    (nt : ExchangeOutcome) (netD netD2 : Dict → HttpOutcome)
    (netS : String → HttpOutcome) (params qb : Dict) (aid : String)
    (e m1 m2 : String) (x1 : Option Int) (x2 : Option String)
    (hfail : (SFMCClient.get_access_token st now nt).1 = AuthResult.failure e)
    (hstale : tokenValid st2 now2 = false) :
    (SFMCClient.search_assets st now nt netD params).1 = OpResult.failure e ∧
    (SFMCClient.search_assets st now nt netD params).2.2.2 = 0 ∧
    (SFMCClient.advanced_asset_search st now nt netD2 qb).1 = AdvResult.failure e ∧
    (SFMCClient.advanced_asset_search st now nt netD2 qb).2.2.2 = 0 ∧
    (get_asset_by_id (some st) aid now nt netS).1 = AssetByIdResult.authFailed e ∧
    (get_asset_by_id (some st) aid now nt netS).2.2.2 = 0 ∧
    SFMCClient.get_access_token st2 now2 (ExchangeOutcome.transportError m1)
      = (AuthResult.failure ("Authentication failed: " ++ m1), st2, 1) ∧
    SFMCClient.get_access_token st2 now2 (ExchangeOutcome.malformedJson m2)
      = (AuthResult.failure ("Authentication failed: " ++ m2), st2, 1) ∧
    SFMCClient.get_access_token st2 now2 (ExchangeOutcome.body none x1 x2)
      = (AuthResult.failure "Unexpected authentication error: 'access_token'", st2, 1) := by
  rcases hE : SFMCClient.get_access_token st now nt with ⟨r, st1, tc⟩
  rw [hE] at hfail
  simp only at hfail
  subst hfail
  refine ⟨?_, ?_, ?_, ?_, ?_, ?_, ?_, ?_, ?_⟩
  · unfold SFMCClient.search_assets; rw [hE]
  · unfold SFMCClient.search_assets; rw [hE]
  · unfold SFMCClient.advanced_asset_search; rw [hE]
  · unfold SFMCClient.advanced_asset_search; rw [hE]
  · simp [get_asset_by_id, hE]
  · simp [get_asset_by_id, hE]
  · simp [SFMCClient.get_access_token, hstale]
  · simp [SFMCClient.get_access_token, hstale]
  · simp [SFMCClient.get_access_token, hstale]

/-- Claim C8 witness: a concrete transport failure propagated through
`search_assets`. -/
theorem auth_failure_propagation_witness :
    (SFMCClient.search_assets ⟨none, none⟩ 0 (ExchangeOutcome.transportError "boom")
        (fun _ => HttpOutcome.body (Json.obj [])) []).1
      = OpResult.failure "Authentication failed: boom" ∧
    (SFMCClient.search_assets ⟨none, none⟩ 0 (ExchangeOutcome.transportError "boom")
        (fun _ => HttpOutcome.body (Json.obj [])) []).2.2.2 = 0 := by
  have h := auth_failure_propagation ⟨none, none⟩ ⟨none, none⟩ 0 0
    (ExchangeOutcome.transportError "boom")
    (fun _ => HttpOutcome.body (Json.obj [])) (fun _ => HttpOutcome.body (Json.obj []))
    (fun _ => HttpOutcome.body (Json.obj [])) [] [] "12345"
    "Authentication failed: boom" "m1" "m2" none none rfl (by decide)
  exact ⟨h.1, h.2.1⟩

/-- Claim C10: if the token exchange fails (transport/HTTP error,
malformed JSON body, or a body missing `access_token`), the cached
`access_token` and `token_expiry` fields are left exactly as they were,
and the call returns a failure result. -/
theorem token_exchange_atomicity (st : ClientState) (now : Int) (m1 m2 : String)
    (x1 : Option Int) (x2 : Option String)
    (hstale : tokenValid st now = false) :
    (SFMCClient.get_access_token st now (ExchangeOutcome.transportError m1)).2.1 = st ∧
    ((SFMCClient.get_access_token st now (ExchangeOutcome.transportError m1)).1).isFailure
      = true ∧
    (SFMCClient.get_access_token st now (ExchangeOutcome.malformedJson m2)).2.1 = st ∧
    ((SFMCClient.get_access_token st now (ExchangeOutcome.malformedJson m2)).1).isFailure
      = true ∧
    (SFMCClient.get_access_token st now (ExchangeOutcome.body none x1 x2)).2.1 = st ∧
    ((SFMCClient.get_access_token st now (ExchangeOutcome.body none x1 x2)).1).isFailure
      = true := by
  refine ⟨?_, ?_, ?_, ?_, ?_, ?_⟩ <;>
    simp [SFMCClient.get_access_token, hstale, AuthResult.isFailure]

/-- Claim C10 witness: a stale client state is unchanged by a failing
exchange. -/
theorem token_exchange_atomicity_witness :
    (SFMCClient.get_access_token ⟨some "old", some 5⟩ 9
        (ExchangeOutcome.transportError "down")).2.1 = ⟨some "old", some 5⟩ ∧
    ((SFMCClient.get_access_token ⟨some "old", some 5⟩ 9
        (ExchangeOutcome.body none none none)).1).isFailure = true := by
  have h := token_exchange_atomicity ⟨some "old", some 5⟩ 9 "down" "bad json"
    none none (by decide)
  exact ⟨h.1, h.2.2.2.2.2⟩

end SFMC
